import Mathlib

/-!
Shallow embedding of the python_template service:
configuration resolution (src/app/config/settings.py), the root endpoint
(src/app/main.py) and the health endpoint (src/app/routes/api/health.py),
with theorems checking the specification's claims against it.
-/

namespace PyTemplate

/-- A process environment, or the parsed key-value contents of a dotenv
file, as an association list of variable names to string values. -/
abbrev Env := List (String × String)

/-- First binding of a key in an environment (mirrors `os.getenv` /
pydantic-settings source lookup). -/
def lookupEnv : Env → String → Option String
  | [], _ => none
  | (k, v) :: rest, key => if k = key then some v else lookupEnv rest key

/-- `ENVIRONMENT = os.getenv("ENVIRONMENT", "development")`
(settings.py line 11), computed at module import, before the Settings
class is constructed. -/
def ENVIRONMENT (env : Env) : String :=
  (lookupEnv env "ENVIRONMENT").getD "development"

/-- `env_file=f".env.{ENVIRONMENT}"` (settings.py model_config). -/
def envFileName (env : Env) : String :=
  ".env." ++ ENVIRONMENT env

/-- The Settings record (settings.py lines 14-24): service name, version
and description, bind host, bind port, log verbosity level. -/
structure Settings where
  SERVICE_NAME : String
  SERVICE_VERSION : String
  SERVICE_DESCRIPTION : String
  HOST : String
  PORT : Int
  LOG_LEVEL : String
deriving Repr, DecidableEq

/-- pydantic-settings resolution for a `str` field: explicit environment
variable, else the env-file value, else the field's default. -/
def resolveStr (env file : Env) (name default : String) : String :=
  match lookupEnv env name with
  | some v => v
  | none =>
    match lookupEnv file name with
    | some v => v
    | none => default

/-- pydantic lax coercion of a decimal digit list to a natural number. -/
def digitsToNat : List Char → Option Nat
  | [] => none
  | l =>
    if l.all Char.isDigit then
      some (l.foldl (fun a c => a * 10 + (c.toNat - 48)) 0)
    else
      none

/-- pydantic lax coercion of a string to an `int`: optional surrounding
whitespace, optional sign, decimal digits; anything else fails. -/
def parseIntStr (s : String) : Option Int :=
  match s.trim.data with
  | '+' :: rest => (digitsToNat rest).map Int.ofNat
  | '-' :: rest => (digitsToNat rest).map (fun n => -(n : Int))
  | l => (digitsToNat l).map Int.ofNat

/-- pydantic-settings resolution for the `int` field PORT (default 8010):
explicit environment variable, else env-file value, coerced to an
integer; coercion failure is a ValidationError. -/
def resolvePort (env file : Env) : Except String Int :=
  match lookupEnv env "PORT" with
  | some v =>
    match parseIntStr v with
    | some n => Except.ok n
    | none => Except.error "ValidationError: PORT"
  | none =>
    match lookupEnv file "PORT" with
    | some v =>
      match parseIntStr v with
      | some n => Except.ok n
      | none => Except.error "ValidationError: PORT"
    | none => Except.ok 8010

/-- `Settings()` construction (settings.py lines 14-34): each field
resolved as explicit environment variable over env-file value over the
hardcoded default; `extra="ignore"` means keys other than the declared
field names are never consulted.  The SERVICE_VERSION default is itself
`os.getenv("SERVICE_VERSION", "v0.0.1")` evaluated at class definition
time (line 18).  The sole failure is a type-coercion error on PORT. -/
def buildSettings (env file : Env) : Except String Settings :=
  match resolvePort env file with
  | Except.error e => Except.error e
  | Except.ok port =>
    Except.ok
      { SERVICE_NAME := resolveStr env file "SERVICE_NAME" "Service Name"
        SERVICE_VERSION :=
          resolveStr env file "SERVICE_VERSION"
            ((lookupEnv env "SERVICE_VERSION").getD "v0.0.1")
        SERVICE_DESCRIPTION :=
          resolveStr env file "SERVICE_DESCRIPTION" "Service Description"
        HOST := resolveStr env file "HOST" "0.0.0.0"
        PORT := port
        LOG_LEVEL := resolveStr env file "LOG_LEVEL" "DEBUG" }

/-- Module-level `settings = Settings()` given the process environment and
the filesystem (a map from file name to parsed dotenv contents): the env
file read is the one named `.env.<ENVIRONMENT>`. -/
def loadSettings (env : Env) (fs : String → Env) : Except String Settings :=
  buildSettings env (fs (envFileName env))

/-- Modelled from the spec: the HealthStatus value object of
`app/models/models.py`, which is imported by health.py but absent from
the sources; per spec section 3 it has fields status (string), timestamp
(point-in-time, UTC), service (string), version (string).  Time is
modelled as a natural number of ticks since the epoch. -/
structure HealthStatus where
  status : String
  timestamp : Nat
  service : String
  version : String
deriving Repr, DecidableEq

/-- `health_check` (health.py lines 17-31): builds a fresh HealthStatus
from the settings and the current wall-clock instant `now`
(`datetime.now(tz=timezone.utc)`). -/
def health_check (s : Settings) (now : Nat) : HealthStatus :=
  { status := "healthy"
    timestamp := now
    service := s.SERVICE_NAME
    version := s.SERVICE_VERSION }

/-- The body returned by `root` (main.py lines 39-51); the endpoints map
is modelled as an association list. -/
structure RootResponse where
  service : String
  version : String
  status : String
  docs : String
  endpoints : List (String × String)
deriving Repr, DecidableEq

/-- `root` (main.py lines 39-51). -/
def root (s : Settings) : RootResponse :=
  { service := s.SERVICE_NAME
    version := s.SERVICE_VERSION
    status := "running"
    docs := "/docs"
    endpoints := [("health", "/health")] }

/-- The requests the HTTP surface serves. -/
inductive Request
  | rootReq
  | healthReq
deriving Repr, DecidableEq

/-- A response body: either the root payload or a health payload. -/
inductive Body
  | rootBody (r : RootResponse)
  | healthBody (h : HealthStatus)
deriving Repr, DecidableEq

/-- The process-wide server state: just the settings constructed at
startup (no other shared state exists in the code). -/
structure ServerState where
  settings : Settings
deriving Repr, DecidableEq

/-- Request dispatch: each handler reads the settings and the clock and
returns an HTTP status code with a body; neither handler assigns to any
shared name, so the server state is returned unchanged. -/
def handle : Request → ServerState → Nat → (Nat × Body) × ServerState
  | Request.rootReq, st, _ => ((200, Body.rootBody (root st.settings)), st)
  | Request.healthReq, st, now =>
    ((200, Body.healthBody (health_check st.settings now)), st)

/-- Process startup (main.py): construct Settings, then serve; a
construction failure propagates and no server state is ever produced. -/
def startup (env : Env) (fs : String → Env) : Except String ServerState :=
  match loadSettings env fs with
  | Except.error e => Except.error e
  | Except.ok s => Except.ok { settings := s }

/-- The priority law for one string-valued field: the resolved value is
the explicit environment variable when set, else the file value when
present, else the given default.  Stated over the primitive lookups, not
over the resolver used by `buildSettings`. -/
def priorityLaw (env file : Env) (name default value : String) : Prop :=
  (∀ v, lookupEnv env name = some v → value = v) ∧
  (lookupEnv env name = none →
    ∀ v, lookupEnv file name = some v → value = v) ∧
  (lookupEnv env name = none → lookupEnv file name = none → value = default)

/-- The spec's allowed log verbosity levels. -/
def validLogLevel (l : String) : Bool :=
  l == "DEBUG" || l == "INFO" || l == "WARN" || l == "ERROR"

/-- The PORT value actually supplied by the environment layers, if any:
explicit environment variable first, else env-file value. -/
def suppliedPORT (env file : Env) : Option String :=
  match lookupEnv env "PORT" with
  | some v => some v
  | none => lookupEnv file "PORT"

/-- Prepending a binding for a different key leaves a lookup unchanged. -/
theorem lookupEnv_cons_ne (k w key : String) (l : Env) (h : k ≠ key) :
    lookupEnv ((k, w) :: l) key = lookupEnv l key := by
  simp [lookupEnv, h]

/-- The string-field resolver satisfies the priority law. -/
theorem resolveStr_priority (env file : Env) (name default : String) :
    priorityLaw env file name default (resolveStr env file name default) := by
  refine ⟨?_, ?_, ?_⟩
  · intro v hv; simp [resolveStr, hv]
  · intro hn v hv; simp [resolveStr, hn, hv]
  · intro hn hf; simp [resolveStr, hn, hf]

/-- SERVICE_VERSION, whose hardcoded default is itself an environment
lookup with fallback "v0.0.1", also satisfies the priority law with
default "v0.0.1". -/
theorem serviceVersion_priority (env file : Env) :
    priorityLaw env file "SERVICE_VERSION" "v0.0.1"
      (resolveStr env file "SERVICE_VERSION"
        ((lookupEnv env "SERVICE_VERSION").getD "v0.0.1")) := by
  refine ⟨?_, ?_, ?_⟩
  · intro v hv; simp [resolveStr, hv]
  · intro hn v hv; simp [resolveStr, hn, hv]
  · intro hn hf; simp [resolveStr, hn, hf]

/-- When PORT resolution succeeds, the resulting integer obeys the
priority law: the parse of the explicit environment value when set, else
the parse of the file value, else the default 8010. -/
theorem resolvePort_priority (env file : Env) (port : Int)
    (hp : resolvePort env file = Except.ok port) :
    (∀ v, lookupEnv env "PORT" = some v → parseIntStr v = some port) ∧
    (lookupEnv env "PORT" = none →
      ∀ v, lookupEnv file "PORT" = some v → parseIntStr v = some port) ∧
    (lookupEnv env "PORT" = none → lookupEnv file "PORT" = none →
      port = 8010) := by
  refine ⟨?_, ?_, ?_⟩
  · intro v hv
    cases hpar : parseIntStr v with
    | none => simp [resolvePort, hv, hpar] at hp
    | some n => simp [resolvePort, hv, hpar] at hp; subst hp; rfl
  · intro hn v hv
    cases hpar : parseIntStr v with
    | none => simp [resolvePort, hn, hv, hpar] at hp
    | some n => simp [resolvePort, hn, hv, hpar] at hp; subst hp; rfl
  · intro hn hf
    simp [resolvePort, hn, hf] at hp
    omega

/-- PORT resolution succeeds exactly when the supplied value, if any,
parses as an integer. -/
theorem resolvePort_ok_iff (env file : Env) :
    (∃ p, resolvePort env file = Except.ok p) ↔
      (∀ v, suppliedPORT env file = some v → (parseIntStr v).isSome = true) := by
  constructor
  · rintro ⟨p, hp⟩ v hv
    cases he : lookupEnv env "PORT" with
    | some w =>
      simp [suppliedPORT, he] at hv
      rw [hv] at he
      cases hpar : parseIntStr v with
      | none => simp [resolvePort, he, hpar] at hp
      | some n => rfl
    | none =>
      simp [suppliedPORT, he] at hv
      cases hpar : parseIntStr v with
      | none => simp [resolvePort, he, hv, hpar] at hp
      | some n => rfl
  · intro h
    cases he : lookupEnv env "PORT" with
    | some w =>
      have hw : (parseIntStr w).isSome = true := h w (by simp [suppliedPORT, he])
      cases hpar : parseIntStr w with
      | none => rw [hpar] at hw; cases hw
      | some n => exact ⟨n, by simp [resolvePort, he, hpar]⟩
    | none =>
      cases hf : lookupEnv file "PORT" with
      | some w =>
        have hw : (parseIntStr w).isSome = true :=
          h w (by simp [suppliedPORT, he, hf])
        cases hpar : parseIntStr w with
        | none => rw [hpar] at hw; cases hw
        | some n => exact ⟨n, by simp [resolvePort, he, hf, hpar]⟩
      | none => exact ⟨8010, by simp [resolvePort, he, hf]⟩

/-- Settings construction succeeds exactly when PORT resolution does. -/
theorem buildSettings_ok_iff (env file : Env) :
    (∃ s, buildSettings env file = Except.ok s) ↔
      (∃ p, resolvePort env file = Except.ok p) := by
  constructor
  · rintro ⟨s, hs⟩
    rw [buildSettings] at hs
    cases hp : resolvePort env file with
    | error e => rw [hp] at hs; cases hs
    | ok p => exact ⟨p, rfl⟩
  · rintro ⟨p, hp⟩
    refine ⟨
      { SERVICE_NAME := resolveStr env file "SERVICE_NAME" "Service Name"
        SERVICE_VERSION :=
          resolveStr env file "SERVICE_VERSION"
            ((lookupEnv env "SERVICE_VERSION").getD "v0.0.1")
        SERVICE_DESCRIPTION :=
          resolveStr env file "SERVICE_DESCRIPTION" "Service Description"
        HOST := resolveStr env file "HOST" "0.0.0.0"
        PORT := p
        LOG_LEVEL := resolveStr env file "LOG_LEVEL" "DEBUG" }, ?_⟩
    simp [buildSettings, hp]

/-- The Settings record holding every hardcoded default of settings.py. -/
def defaultSettings : Settings :=
  { SERVICE_NAME := "Service Name"
    SERVICE_VERSION := "v0.0.1"
    SERVICE_DESCRIPTION := "Service Description"
    HOST := "0.0.0.0"
    PORT := 8010
    LOG_LEVEL := "DEBUG" }

/-- C1: for every recognized Settings field, the value resolved at
construction equals the explicit environment variable when that variable
is set, else the value from the environment-specific file when present
there, else the hardcoded default; in particular, when the environment
binds SERVICE_VERSION to "v2.3.4" the resolved SERVICE_VERSION is
"v2.3.4". -/
theorem C1_settings_priority (env file : Env) (s : Settings)
    (hok : buildSettings env file = Except.ok s) :
    priorityLaw env file "SERVICE_NAME" "Service Name" s.SERVICE_NAME ∧
    priorityLaw env file "SERVICE_VERSION" "v0.0.1" s.SERVICE_VERSION ∧
    priorityLaw env file "SERVICE_DESCRIPTION" "Service Description"
      s.SERVICE_DESCRIPTION ∧
    priorityLaw env file "HOST" "0.0.0.0" s.HOST ∧
    priorityLaw env file "LOG_LEVEL" "DEBUG" s.LOG_LEVEL ∧
    ((∀ v, lookupEnv env "PORT" = some v → parseIntStr v = some s.PORT) ∧
      (lookupEnv env "PORT" = none →
        ∀ v, lookupEnv file "PORT" = some v → parseIntStr v = some s.PORT) ∧
      (lookupEnv env "PORT" = none → lookupEnv file "PORT" = none →
        s.PORT = 8010)) ∧
    (lookupEnv env "SERVICE_VERSION" = some "v2.3.4" →
      s.SERVICE_VERSION = "v2.3.4") := by
  cases hp : resolvePort env file with
  | error e => simp [buildSettings, hp] at hok
  | ok p =>
    simp [buildSettings, hp] at hok
    subst hok
    refine ⟨resolveStr_priority env file "SERVICE_NAME" "Service Name",
      serviceVersion_priority env file,
      resolveStr_priority env file "SERVICE_DESCRIPTION" "Service Description",
      resolveStr_priority env file "HOST" "0.0.0.0",
      resolveStr_priority env file "LOG_LEVEL" "DEBUG",
      resolvePort_priority env file p hp, ?_⟩
    intro hv
    exact (serviceVersion_priority env file).1 "v2.3.4" hv

/-- Witness for C1: with the environment binding SERVICE_VERSION to
"v2.3.4" and an empty env file, the constructed Settings has
SERVICE_VERSION "v2.3.4". -/
theorem C1_settings_priority_witness :
    Settings.SERVICE_VERSION
      { SERVICE_NAME := "Service Name"
        SERVICE_VERSION := "v2.3.4"
        SERVICE_DESCRIPTION := "Service Description"
        HOST := "0.0.0.0"
        PORT := 8010
        LOG_LEVEL := "DEBUG" } = "v2.3.4" :=
  (C1_settings_priority [("SERVICE_VERSION", "v2.3.4")] [] _ rfl).2.2.2.2.2.2
    rfl

/-- C2: every GET /health request returns HTTP 200 and a HealthStatus
body whose status is "healthy", whose service is the settings'
SERVICE_NAME and whose version is the settings' SERVICE_VERSION; under
the default construction those are "Service Name" and "v0.0.1". -/
theorem C2_health_endpoint (st : ServerState) (now : Nat) :
    ((handle Request.healthReq st now).1.1 = 200 ∧
      (handle Request.healthReq st now).1.2 =
        Body.healthBody (health_check st.settings now) ∧
      (health_check st.settings now).status = "healthy" ∧
      (health_check st.settings now).service = st.settings.SERVICE_NAME ∧
      (health_check st.settings now).version = st.settings.SERVICE_VERSION) ∧
    (buildSettings [] []).map (fun s => (s.SERVICE_NAME, s.SERVICE_VERSION))
      = Except.ok ("Service Name", "v0.0.1") :=
  ⟨⟨rfl, rfl, rfl, rfl, rfl⟩, rfl⟩

/-- C3: every GET / request returns HTTP 200 with exactly the body built
from the settings' name and version, status "running", docs "/docs", and
an endpoints map holding exactly the one key "health" mapped to
"/health"; the server state is returned unchanged. -/
theorem C3_root_endpoint (st : ServerState) (now : Nat) :
    handle Request.rootReq st now =
      ((200, Body.rootBody
          { service := st.settings.SERVICE_NAME
            version := st.settings.SERVICE_VERSION
            status := "running"
            docs := "/docs"
            endpoints := [("health", "/health")] }), st) := rfl

/-- C4: the health response's timestamp is exactly the wall-clock instant
at which the request is handled (never a cached value), so whenever that
instant lies between process start and the current time, so does the
timestamp. -/
theorem C4_timestamp_fresh (s : Settings) (now start cur : Nat)
    (h1 : start ≤ now) (h2 : now ≤ cur) :
    (health_check s now).timestamp = now ∧
    start ≤ (health_check s now).timestamp ∧
    (health_check s now).timestamp ≤ cur :=
  ⟨rfl, h1, h2⟩

/-- Witness for C4 at start time 3, request time 5, current time 7. -/
theorem C4_timestamp_fresh_witness :
    (health_check defaultSettings 5).timestamp = 5 ∧
    3 ≤ (health_check defaultSettings 5).timestamp ∧
    (health_check defaultSettings 5).timestamp ≤ 7 :=
  C4_timestamp_fresh defaultSettings 5 3 7 (by decide) (by decide)

/-- C5: across two sequential health requests, handled at non-decreasing
clock instants, the later response's timestamp is not below the earlier
one's. -/
theorem C5_timestamp_monotone (s : Settings) (t1 t2 : Nat) (h : t1 ≤ t2) :
    (health_check s t1).timestamp ≤ (health_check s t2).timestamp := h

/-- Witness for C5 at the clock instants 4 and 9. -/
theorem C5_timestamp_monotone_witness :
    (health_check defaultSettings 4).timestamp ≤
      (health_check defaultSettings 9).timestamp :=
  C5_timestamp_monotone defaultSettings 4 9 (by decide)

/-- C6: Settings construction succeeds exactly when the supplied PORT
value (the only declared field with a non-string type) coerces to an
integer; a binding for any key that is not a declared field name changes
nothing, whether it appears in the environment or in the env file; and a
construction failure propagates through startup, so no server state is
ever produced. -/
theorem C6_construction_error (env file : Env) (k w : String)
    (h1 : k ≠ "SERVICE_NAME") (h2 : k ≠ "SERVICE_VERSION")
    (h3 : k ≠ "SERVICE_DESCRIPTION") (h4 : k ≠ "HOST")
    (h5 : k ≠ "PORT") (h6 : k ≠ "LOG_LEVEL") :
    ((∃ s, buildSettings env file = Except.ok s) ↔
      ∀ v, suppliedPORT env file = some v → (parseIntStr v).isSome = true) ∧
    buildSettings ((k, w) :: env) file = buildSettings env file ∧
    buildSettings env ((k, w) :: file) = buildSettings env file ∧
    (∀ fs : String → Env, ∀ e, loadSettings env fs = Except.error e →
      startup env fs = Except.error e) := by
  refine ⟨(buildSettings_ok_iff env file).trans (resolvePort_ok_iff env file),
    ?_, ?_, ?_⟩
  · have e1 := lookupEnv_cons_ne k w "SERVICE_NAME" env h1
    have e2 := lookupEnv_cons_ne k w "SERVICE_VERSION" env h2
    have e3 := lookupEnv_cons_ne k w "SERVICE_DESCRIPTION" env h3
    have e4 := lookupEnv_cons_ne k w "HOST" env h4
    have e5 := lookupEnv_cons_ne k w "PORT" env h5
    have e6 := lookupEnv_cons_ne k w "LOG_LEVEL" env h6
    simp [buildSettings, resolveStr, resolvePort, e1, e2, e3, e4, e5, e6]
  · have f1 := lookupEnv_cons_ne k w "SERVICE_NAME" file h1
    have f2 := lookupEnv_cons_ne k w "SERVICE_VERSION" file h2
    have f3 := lookupEnv_cons_ne k w "SERVICE_DESCRIPTION" file h3
    have f4 := lookupEnv_cons_ne k w "HOST" file h4
    have f5 := lookupEnv_cons_ne k w "PORT" file h5
    have f6 := lookupEnv_cons_ne k w "LOG_LEVEL" file h6
    simp [buildSettings, resolveStr, resolvePort, f1, f2, f3, f4, f5, f6]
  · intro fs e he
    simp [startup, he]

/-- Witness for C6: an unrecognized key in the environment leaves the
construction result unchanged. -/
theorem C6_construction_error_witness :
    buildSettings [("EXTRA", "x")] [] = buildSettings [] [] :=
  (C6_construction_error [] [] "EXTRA" "x" (by decide) (by decide) (by decide)
    (by decide) (by decide) (by decide)).2.1

/-- C7 counterexample: constructing Settings with the environment binding
LOG_LEVEL to "TRACE" succeeds and yields a LOG_LEVEL outside the
DEBUG/INFO/WARN/ERROR enumeration, refuting the claim that a constructed
Settings' LOG_LEVEL only ever holds one of those four values. -/
theorem C7_log_level_counterexample :
    (buildSettings [("LOG_LEVEL", "TRACE")] []).map
      (fun s => validLogLevel s.LOG_LEVEL) = Except.ok false := rfl

/-- C7 amended: the code does not validate LOG_LEVEL, which holds
whatever string the environment or the env file supplies; when neither
supplies one it holds the default "DEBUG", which is one of the four spec
values. -/
theorem C7_log_level_amended (env file : Env) (s : Settings)
    (hok : buildSettings env file = Except.ok s)
    (he : lookupEnv env "LOG_LEVEL" = none)
    (hf : lookupEnv file "LOG_LEVEL" = none) :
    s.LOG_LEVEL = "DEBUG" ∧ validLogLevel s.LOG_LEVEL = true := by
  cases hp : resolvePort env file with
  | error e => simp [buildSettings, hp] at hok
  | ok p =>
    simp [buildSettings, hp] at hok
    subst hok
    refine ⟨?_, ?_⟩
    · simp [resolveStr, he, hf]
    · simp [resolveStr, he, hf, validLogLevel]

/-- Witness for C7 amended: with no LOG_LEVEL supplied anywhere, the
constructed LOG_LEVEL is "DEBUG" and valid. -/
theorem C7_log_level_amended_witness :
    defaultSettings.LOG_LEVEL = "DEBUG" ∧
      validLogLevel defaultSettings.LOG_LEVEL = true :=
  C7_log_level_amended [] [] defaultSettings rfl rfl rfl

/-- C8: the environment-specific file read at construction is named
`.env.<ENVIRONMENT>` with ENVIRONMENT the value of the ENVIRONMENT
variable when set and "development" otherwise; module-level loading
computes that name from the process environment once and construction
reads exactly the file so named. -/
theorem C8_env_file (env : Env) (fs : String → Env) :
    (∀ e, lookupEnv env "ENVIRONMENT" = some e →
      envFileName env = ".env." ++ e) ∧
    (lookupEnv env "ENVIRONMENT" = none →
      envFileName env = ".env.development") ∧
    loadSettings env fs = buildSettings env (fs (envFileName env)) := by
  refine ⟨?_, ?_, rfl⟩
  · intro e he
    simp [envFileName, ENVIRONMENT, he]
  · intro he
    simp [envFileName, ENVIRONMENT, he]

/-- Witness for C8: with ENVIRONMENT set to "production" the file name is
".env.production". -/
theorem C8_env_file_witness :
    envFileName [("ENVIRONMENT", "production")] = ".env.production" :=
  (C8_env_file [("ENVIRONMENT", "production")] (fun _ => [])).1 "production"
    rfl

/-- C9: neither handler mutates the server state: after any request the
settings (the only process-wide state) equal their value before it. -/
theorem C9_no_shared_mutation (req : Request) (st : ServerState)
    (now : Nat) :
    (handle req st now).2 = st ∧
    ((handle req st now).2).settings = st.settings := by
  cases req <;> exact ⟨rfl, rfl⟩

/-- C10: with no environment bindings and no env file contents, the
constructed Settings has HOST "0.0.0.0", PORT 8010, LOG_LEVEL "DEBUG"
and SERVICE_DESCRIPTION "Service Description". -/
theorem C10_implicit_defaults :
    buildSettings [] [] = Except.ok defaultSettings ∧
    defaultSettings.HOST = "0.0.0.0" ∧
    defaultSettings.PORT = 8010 ∧
    defaultSettings.LOG_LEVEL = "DEBUG" ∧
    defaultSettings.SERVICE_DESCRIPTION = "Service Description" :=
  ⟨rfl, rfl, rfl, rfl, rfl⟩

end PyTemplate
